import Mathlib

set_option maxHeartbeats 1000000
set_option maxRecDepth 4000

/-- JSON values as produced by Python's json.loads, restricted to the
fragment the pipeline exchanges: null, booleans, integers, strings, arrays
and objects.  Objects keep their members in source order; duplicate keys are
resolved the way a Python dict built by json.loads resolves them (the last
binding wins), see lookupLast below.  Float literals are outside the
modelled fragment (no claim exercises them). -/
inductive Json where
  | null : Json
  | bool (b : Bool) : Json
  | int (n : Int) : Json
  | str (s : String) : Json
  | arr (elems : List Json) : Json
  | obj (members : List (String × Json)) : Json

/-- Key membership in a JSON object, Python's `k in d` on the dict built by
json.loads. -/
def containsKey (kvs : List (String × Json)) (k : String) : Bool :=
  kvs.any (fun p => p.1 == k)

/-- Key lookup in a JSON object: Python's `d[k]`.  json.loads builds the
dict left to right, so on duplicate keys the last binding wins. -/
def lookupLast (kvs : List (String × Json)) (k : String) : Option Json :=
  match kvs with
  | [] => none
  | (k', v) :: rest =>
    match lookupLast rest k with
    | some v' => some v'
    | none => if k' == k then some v else none

/-- The pydantic model DocumentSection of api.py (lines 22-27):
integer index, string title, string content. -/
structure DocumentSection where
  index : Int
  title : String
  content : String
deriving DecidableEq

/-- Error outcomes of the extract-sections endpoint, one constructor per
distinct HTTPException site in api.py.  The carried detail keeps the fixed
message text of the source; the str(e) interpolation of the underlying
Python exception object is not modelled. -/
inductive ApiError where
  /-- 400: unsupported extension (api.py lines 154-158). -/
  | badRequest (detail : String) : ApiError
  /-- 422: file_chat.load_file returned False (api.py lines 174-178). -/
  | unprocessable (detail : String) : ApiError
  /-- 500: the parsed model output carried an `error` key
  (api.py lines 191-195). -/
  | backendReported (detail : Json) : ApiError
  /-- 500: json.loads failed on the model output (api.py lines 215-220). -/
  | invalidModelOutput (detail : String) : ApiError
  /-- 500: any other exception in the handler, e.g. a pydantic validation
  failure or a missing element key (api.py lines 225-230). -/
  | processingError (detail : String) : ApiError

/-- Numeric value of a digit string. -/
def digitsVal (ds : List Char) : Nat :=
  ds.foldl (fun a c => a * 10 + (c.toNat - 48)) 0

/-- Value of a plain digit run; an empty run or a non-digit character
refuses the whole run. -/
def numeralCore (ds : List Char) : Option Int :=
  if ds.isEmpty then none
  else if ds.all Char.isDigit then some (Int.ofNat (digitsVal ds)) else none

/-- Signed decimal numeral: the string shapes pydantic's lax mode reads
into an `int` field (an optional sign, then digits).  Exotic coercions some
pydantic builds additionally accept (surrounding whitespace, non-ASCII
digits, digit-group underscores) are outside the modelled fragment and are
avoided by every theorem below. -/
def signedNumeral (cs : List Char) : Option Int :=
  match cs with
  | [] => none
  | c :: rest =>
    if c = '-' then Option.map (fun n => -n) (numeralCore rest)
    else if c = '+' then numeralCore rest
    else numeralCore (c :: rest)

/-- Pydantic's default lax reading of a JSON value into the declared `int`
field `index` (api.py line 25): an integer passes through, and a numeral
string is coerced to its value — so the endpoint accepts "2" where the
schema names an integer.  Null, arrays, objects and non-numeral strings
are refused; booleans follow pydantic v2, which rejects them for int
fields. -/
def coerceInt (j : Json) : Option Int :=
  match j with
  | Json.int n => some n
  | Json.str s => signedNumeral s.data
  | _ => none

/-- Validation of one element of the `sections` array
(api.py lines 199-206): `DocumentSection(index=section_data["index"],
title=section_data["title"], content=section_data["content"])`.
A non-dict element or a missing key raises (TypeError/KeyError); pydantic
then validates `index` with the lax int coercion of coerceInt and requires
`title` and `content` to be strings; every failure surfaces through the
generic `except Exception` handler of api.py lines 225-230. -/
def validateSection (j : Json) : Except ApiError DocumentSection :=
  match j with
  | Json.obj kvs =>
    match lookupLast kvs "index", lookupLast kvs "title", lookupLast kvs "content" with
    | some ji, some (Json.str t), some (Json.str c) =>
      match coerceInt ji with
      | some i => Except.ok { index := i, title := t, content := c }
      | none => Except.error (ApiError.processingError "处理文件时发生错误")
    | _, _, _ => Except.error (ApiError.processingError "处理文件时发生错误")
  | _ => Except.error (ApiError.processingError "处理文件时发生错误")

/-- The element loop of api.py lines 198-206: build the DocumentSection list
in array order, failing the whole call at the first bad element. -/
def buildSections (elems : List Json) : Except ApiError (List DocumentSection) :=
  match elems with
  | [] => Except.ok []
  | j :: rest =>
    match validateSection j with
    | Except.error e => Except.error e
    | Except.ok s =>
      match buildSections rest with
      | Except.error e => Except.error e
      | Except.ok ss => Except.ok (s :: ss)

/-- The validation of the parsed model output, api.py lines 190-213:
first the `error`-key check (propagated as an HTTP 500 carrying the reported
value), then `sections_data.get("sections", [])` — a missing `sections` key
defaults to the empty list — and the for-loop over that value.  A top-level
value that is not a dict raises at the `in` or `.get` call.  The loop
iterates whatever the `sections` value yields: an array element-wise; a
string character-wise and a dict key-wise, so the empty string and the
empty dict iterate zero times and return success with no sections, while
any character or key of a non-empty one fails as a non-dict element;
null, booleans and numbers are not iterable and raise. -/
def validateSections (j : Json) : Except ApiError (List DocumentSection) :=
  match j with
  | Json.obj kvs =>
    if containsKey kvs "error" then
      Except.error (ApiError.backendReported ((lookupLast kvs "error").getD Json.null))
    else
      match lookupLast kvs "sections" with
      | some (Json.arr elems) => buildSections elems
      | some (Json.str s) =>
        if s.data.isEmpty then Except.ok []
        else Except.error (ApiError.processingError "处理文件时发生错误")
      | some (Json.obj mkvs) =>
        if mkvs.isEmpty then Except.ok []
        else Except.error (ApiError.processingError "处理文件时发生错误")
      | some _ => Except.error (ApiError.processingError "处理文件时发生错误")
      | none => Except.ok []
  | _ => Except.error (ApiError.processingError "处理文件时发生错误")

/-- Opening brace character, written via its code point. -/
def lbrace : Char := Char.ofNat 123

/-- Closing brace character, written via its code point. -/
def rbrace : Char := Char.ofNat 125

/-- JSON whitespace, the four characters json.loads skips between tokens. -/
def jsonSpace (c : Char) : Bool :=
  c.toNat = 32 || c.toNat = 9 || c.toNat = 10 || c.toNat = 13

/-- Drop leading JSON whitespace. -/
def skipWs (cs : List Char) : List Char :=
  match cs with
  | [] => []
  | c :: rest => if jsonSpace c then skipWs rest else c :: rest

/-- Decode one escape character of a JSON string (the single-character
escapes; `\uXXXX` escapes are handled separately in strBody). -/
def escDecode (c : Char) : Option Char :=
  if c = 't' then some (Char.ofNat 9)
  else if c = 'n' then some (Char.ofNat 10)
  else if c = 'r' then some (Char.ofNat 13)
  else if c = 'b' then some (Char.ofNat 8)
  else if c = 'f' then some (Char.ofNat 12)
  else if c = '"' ∨ c = '\\' ∨ c = '/' then some c
  else none

/-- Value of a hexadecimal digit. -/
def hexDigitVal (c : Char) : Option Nat :=
  if 48 ≤ c.toNat ∧ c.toNat ≤ 57 then some (c.toNat - 48)
  else if 97 ≤ c.toNat ∧ c.toNat ≤ 102 then some (c.toNat - 87)
  else if 65 ≤ c.toNat ∧ c.toNat ≤ 70 then some (c.toNat - 55)
  else none

/-- Body of a JSON string literal, after the opening quote: the characters
up to the closing quote, with escapes decoded, and the remaining input.
Raw control characters are rejected as in json.loads strict mode.
Surrogate `\uXXXX` escapes (and surrogate pairs) are outside the modelled
fragment. -/
def strBody (cs : List Char) : Option (List Char × List Char) :=
  match cs with
  | [] => none
  | c :: rest =>
    if c = '"' then some ([], rest)
    else if c = '\\' then
      match rest with
      | [] => none
      | 'u' :: h1 :: h2 :: h3 :: h4 :: rest2 =>
        match hexDigitVal h1, hexDigitVal h2, hexDigitVal h3, hexDigitVal h4 with
        | some a, some b, some cc, some d =>
          let n := ((a * 16 + b) * 16 + cc) * 16 + d
          if 55296 ≤ n ∧ n ≤ 57343 then none
          else
            match strBody rest2 with
            | some (acc, r) => some (Char.ofNat n :: acc, r)
            | none => none
        | _, _, _, _ => none
      | d :: rest2 =>
        match escDecode d with
        | some e =>
          match strBody rest2 with
          | some (acc, r) => some (e :: acc, r)
          | none => none
        | none => none
    else if c.toNat < 32 then none
    else
      match strBody rest with
      | some (acc, r) => some (c :: acc, r)
      | none => none

/-- A JSON number literal at the head of the input.  The grammar of
json.loads: optional minus, then digits with no leading zero.  A fractional
part or exponent marks a float literal, which is outside the modelled
fragment. -/
def parseNum (cs : List Char) : Option (Json × List Char) :=
  let p := match cs with
    | '-' :: r => (true, r)
    | _ => (false, cs)
  let ds := p.2.takeWhile Char.isDigit
  let rest := p.2.dropWhile Char.isDigit
  if ds.isEmpty then none
  else if 1 < ds.length ∧ ds.head? = some '0' then none
  else
    match rest with
    | '.' :: _ => none
    | 'e' :: _ => none
    | 'E' :: _ => none
    | _ =>
      let v : Int := Int.ofNat (digitsVal ds)
      some (Json.int (if p.1 then -v else v), rest)

/-- Consume an expected literal character sequence. -/
def expectChars (pat : List Char) (cs : List Char) : Option (List Char) :=
  match pat, cs with
  | [], rest => some rest
  | p :: ps, c :: rest => if c = p then expectChars ps rest else none
  | _ :: _, [] => none

mutual

/-- One JSON value at the head of the input (json.loads's scanner), with a
fuel argument bounding the nesting depth; jsonLoads supplies more fuel than
any input can consume. -/
def parseVal : Nat → List Char → Option (Json × List Char)
  | 0, _ => none
  | fuel + 1, cs =>
    match skipWs cs with
    | [] => none
    | c :: rest =>
      if c = '"' then
        match strBody rest with
        | some (acc, r) => some (Json.str (String.mk acc), r)
        | none => none
      else if c = lbrace then
        match skipWs rest with
        | c2 :: r2 =>
          if c2 = rbrace then some (Json.obj [], r2)
          else
            match parseMembers fuel (c2 :: r2) with
            | some (kvs, r) => some (Json.obj kvs, r)
            | none => none
        | [] => none
      else if c = '[' then
        match skipWs rest with
        | c2 :: r2 =>
          if c2 = ']' then some (Json.arr [], r2)
          else
            match parseItems fuel (c2 :: r2) with
            | some (xs, r) => some (Json.arr xs, r)
            | none => none
        | [] => none
      else if c = 'n' then
        match expectChars ['u', 'l', 'l'] rest with
        | some r => some (Json.null, r)
        | none => none
      else if c = 't' then
        match expectChars ['r', 'u', 'e'] rest with
        | some r => some (Json.bool true, r)
        | none => none
      else if c = 'f' then
        match expectChars ['a', 'l', 's', 'e'] rest with
        | some r => some (Json.bool false, r)
        | none => none
      else parseNum (c :: rest)

/-- The members of a JSON object, entered at the first character after the
opening brace and any whitespace; consumes the closing brace. -/
def parseMembers : Nat → List Char → Option (List (String × Json) × List Char)
  | 0, _ => none
  | fuel + 1, cs =>
    match cs with
    | [] => none
    | c :: rest =>
      if c = '"' then
        match strBody rest with
        | some (kacc, r1) =>
          match skipWs r1 with
          | ':' :: r2 =>
            match parseVal fuel r2 with
            | some (v, r3) =>
              match skipWs r3 with
              | c4 :: r4 =>
                if c4 = ',' then
                  match parseMembers fuel (skipWs r4) with
                  | some (kvs, r5) => some ((String.mk kacc, v) :: kvs, r5)
                  | none => none
                else if c4 = rbrace then some ([(String.mk kacc, v)], r4)
                else none
              | [] => none
            | none => none
          | _ => none
        | none => none
      else none

/-- The elements of a JSON array, entered at the first character after the
opening bracket and any whitespace; consumes the closing bracket. -/
def parseItems : Nat → List Char → Option (List Json × List Char)
  | 0, _ => none
  | fuel + 1, cs =>
    match parseVal fuel cs with
    | some (v, r1) =>
      match skipWs r1 with
      | c2 :: r2 =>
        if c2 = ',' then
          match parseItems fuel r2 with
          | some (xs, r3) => some (v :: xs, r3)
          | none => none
        else if c2 = ']' then some ([v], r2)
        else none
      | [] => none
    | none => none

end

/-- json.loads: parse one JSON value and require that only whitespace
follows it (anything else is the "Extra data" error). -/
def jsonLoads (s : String) : Option Json :=
  match parseVal (s.data.length + 1) s.data with
  | some (j, rest) =>
    match skipWs rest with
    | [] => some j
    | _ :: _ => none
  | none => none

/-- The JSON-handling path of the extract-sections endpoint, api.py lines
186-220: json.loads on the raw model output (a decode failure becomes the
500 carrying a bounded excerpt of the offending text), then
validateSections on the parsed value. -/
def parseModelOutput (raw : String) : Except ApiError (List DocumentSection) :=
  match jsonLoads raw with
  | none =>
    Except.error (ApiError.invalidModelOutput
      ("AI响应格式错误。原始响应: " ++ String.mk (raw.data.take 200) ++ "..."))
  | some j => validateSections j

/-- Split a character list at the path separator. -/
def splitSegs (cs : List Char) : List (List Char) :=
  match cs with
  | [] => [[]]
  | c :: rest =>
    let r := splitSegs rest
    if c = '/' then [] :: r
    else
      match r with
      | s :: ss => (c :: s) :: ss
      | [] => [[c]]

/-- Last path component as computed by pathlib: split on the separator,
dropping empty and single-dot segments. -/
def pathNameChars (path : String) : List Char :=
  ((splitSegs path.data).filter (fun seg => !seg.isEmpty && seg != ['.'])).getLastD []

/-- Characters of the name from its last dot onward, when a dot exists. -/
def suffixAux (cs : List Char) : Option (List Char) :=
  match cs with
  | [] => none
  | c :: rest =>
    match suffixAux rest with
    | some s => some s
    | none => if c = '.' then some (c :: rest) else none

/-- pathlib's Path(path).suffix: the name from its last dot onward, empty
when the dot is the first character of the name (a hidden file) or its last
character. -/
def pathSuffix (path : String) : String :=
  let name := pathNameChars path
  match suffixAux name with
  | some s => if s.length < name.length ∧ 1 < s.length then String.mk s else ""
  | none => ""

/-- Python's str.lower() on the ASCII range, the only range extensions use. -/
def lowerStr (s : String) : String :=
  String.mk (s.data.map Char.toLower)

/-- The five format loaders of FileProcessor (ollama_file_chat.py lines
60-96), abstracted to their identity; their effects enter load_file as the
runLoader argument. -/
inductive FormatLoader where
  | textFile : FormatLoader
  | markdownFile : FormatLoader
  | pdfFile : FormatLoader
  | wordFile : FormatLoader
deriving DecidableEq

/-- The supported_extensions dict of FileProcessor (lines 47-53), in source
order. -/
def loaderTable : List (String × FormatLoader) :=
  [(".txt", FormatLoader.textFile),
   (".md", FormatLoader.markdownFile),
   (".pdf", FormatLoader.pdfFile),
   (".docx", FormatLoader.wordFile),
   (".doc", FormatLoader.wordFile)]

/-- The key set of the supported_extensions dict, as returned by
get_supported_formats (lines 343-350). -/
def supportedExtensions : List String :=
  loaderTable.map Prod.fst

/-- Loader dispatch of load_file: the dict lookup at the lower-cased
extension of the path. -/
def loaderFor (path : String) : Option FormatLoader :=
  loaderTable.lookup (lowerStr (pathSuffix path))

/-- FileProcessor.is_supported_file (lines 98-101): membership of the
lower-cased extension among the dict keys. -/
def is_supported_file (path : String) : Bool :=
  supportedExtensions.contains (lowerStr (pathSuffix path))

/-- Failure modes of FileProcessor.load_file, one per raise site, each
carrying the full message the source formats. -/
inductive LoadError where
  | fileNotFound (msg : String) : LoadError
  | unsupportedFormat (msg : String) : LoadError
  | loadFailed (msg : String) : LoadError
deriving DecidableEq

/-- FileProcessor.load_file (ollama_file_chat.py lines 103-128): the
existence check comes first, then the extension check, and only then the
dispatched loader runs.  The filesystem and the format libraries are
external effects: fileExists carries the outcome of os.path.exists, and
runLoader the outcome of the loader the dispatch would invoke. -/
def FileProcessor.load_file (fileExists : Bool) (path : String)
    (runLoader : FormatLoader → Except String String) : Except LoadError String :=
  if fileExists = false then
    Except.error (LoadError.fileNotFound ("文件不存在: " ++ path))
  else
    match loaderFor path with
    | none =>
      Except.error (LoadError.unsupportedFormat
        ("不支持的文件类型: " ++ lowerStr (pathSuffix path)))
    | some fmt =>
      match runLoader fmt with
      | Except.ok content => Except.ok content
      | Except.error e => Except.error (LoadError.loadFailed ("加载文件时出错: " ++ e))

/-- The mutable document slot of OllamaFileChat (lines 186-187). -/
structure ChatState where
  current_file_content : Option String
  current_file_path : Option String
deriving DecidableEq

/-- The fixed sentinel answer of the derived operations when no document is
loaded. -/
def loadFirstSentinel : String := "请先加载一个文件。"

/-- Python truthiness of the guard `if not self.current_file_content`:
true when no file was loaded or the loaded content is the empty string. -/
def noContent (c : Option String) : Bool :=
  match c with
  | none => true
  | some s => s.data.isEmpty

/-- OllamaFileChat.load_file (lines 189-211).  loadResult is the outcome of
self.file_processor.load_file on the path, infoOk the outcome of the
subsequent get_file_info call.  Any raise lands in the except branch, which
returns False; the two slot assignments happen only after the loader
returned, so a loader failure leaves the state untouched. -/
def OllamaFileChat.load_file (st : ChatState) (path : String)
    (loadResult : Except LoadError String) (infoOk : Bool) : Bool × ChatState :=
  match loadResult with
  | Except.error _ => (false, st)
  | Except.ok content =>
    let st2 : ChatState :=
      { current_file_content := some content, current_file_path := some path }
    if infoOk then (true, st2) else (false, st2)

/-- OllamaFileChat.ask_about_file (lines 213-246).  backend is the outcome
of the single llm.invoke call; the prompt construction (the 3000-character
truncation of the document) does not affect the returned value.  The second
component counts the backend requests issued. -/
def OllamaFileChat.ask_about_file (st : ChatState)
    (backend : Except String String) (_question : String) : String × Nat :=
  if noContent st.current_file_content then (loadFirstSentinel, 0)
  else
    match backend with
    | Except.ok answer => (answer, 1)
    | Except.error e => ("分析文件时出错: " ++ e, 1)

/-- OllamaFileChat.summarize_file (lines 248-259). -/
def OllamaFileChat.summarize_file (st : ChatState)
    (backend : Except String String) : String × Nat :=
  if noContent st.current_file_content then (loadFirstSentinel, 0)
  else OllamaFileChat.ask_about_file st backend
    "请为这个文件提供一个详细的摘要，包括主要内容、关键点和结论。"

/-- OllamaFileChat.analyze_file_structure (lines 261-272). -/
def OllamaFileChat.analyze_file_structure (st : ChatState)
    (backend : Except String String) : String × Nat :=
  if noContent st.current_file_content then (loadFirstSentinel, 0)
  else OllamaFileChat.ask_about_file st backend
    "请分析这个文件的结构和组织方式，包括章节、段落布局等。"

/-- OllamaFileChat.extract_key_points (lines 274-285). -/
def OllamaFileChat.extract_key_points (st : ChatState)
    (backend : Except String String) : String × Nat :=
  if noContent st.current_file_content then (loadFirstSentinel, 0)
  else OllamaFileChat.ask_about_file st backend
    "请从这个文件中提取最重要的关键点，以列表形式呈现。"

/-- OllamaFileChat.extract_document_sections (lines 287-341).  With no
loaded document it returns the literal empty-sections JSON string without
contacting the backend; otherwise exactly one llm.invoke is issued, and an
invoke failure is caught on line 341 and rendered as the error-JSON string.
The second component counts the backend requests issued. -/
def OllamaFileChat.extract_document_sections (st : ChatState)
    (backend : Except String String) : String × Nat :=
  if noContent st.current_file_content then ("\x7b\"sections\": []\x7d", 0)
  else
    match backend with
    | Except.ok response => (response, 1)
    | Except.error e =>
      ("\x7b\"error\": \"文档结构提取时出错: " ++ e ++ "\"\x7d", 1)

/-- Extension gate of the endpoint (api.py lines 151-158):
Path(file.filename or "").suffix.lower() must be among the supported
formats. -/
def apiExtensionAccepted (filename : String) : Bool :=
  supportedExtensions.contains (lowerStr (pathSuffix filename))

/-- The response model DocumentSectionsResponse of api.py (lines 30-36). -/
structure DocumentSectionsResponse where
  sections : List DocumentSection
  file_name : Option String
  file_size : Option String
  processing_status : String

/-- Outcome of one run of the extract-sections handler. -/
inductive HandlerResult where
  | success (resp : DocumentSectionsResponse) : HandlerResult
  | failure (err : ApiError) : HandlerResult

/-- One request against the extract-sections endpoint, with the outcomes of
the external effects the handler performs: the upload-stream read, the
FileProcessor load of the scratch file, the size reported by get_file_info,
and the backend call.  session0 is the state of the shared OllamaFileChat
before the request, tempPath the scratch name NamedTemporaryFile chooses. -/
structure UploadScenario where
  filename : String
  session0 : ChatState
  tempPath : String
  readOk : Bool
  /-- Whether temp_file.write(content) returns; NamedTemporaryFile has
  already created the file when the write runs (api.py lines 167-171). -/
  writeOk : Bool
  loadResult : Except LoadError String
  fileSize : String
  backend : Except String String

/-- What a run of the handler body (the try block of api.py lines 162-230)
leaves behind: its result, whether NamedTemporaryFile created the scratch
file, and whether temp_file_path was assigned so that the finally block can
find the file. -/
structure BodyOutcome where
  result : HandlerResult
  tempCreated : Bool
  tempPathRecorded : Bool

/-- The extract-sections handler body, api.py lines 148-230: the extension
gate (before any scratch file exists), the upload read, the scratch-file
creation and write, the session load (422 on failure), the extraction call
and the validation of its output.  NamedTemporaryFile creates the file on
entry to the with-block, but temp_file_path is assigned only after
temp_file.write(content) returns (lines 167-171): a write failure
therefore leaves the file created with no path recorded. -/
def handlerBody (sc : UploadScenario) : BodyOutcome :=
  if apiExtensionAccepted sc.filename = false then
    { result := HandlerResult.failure (ApiError.badRequest
        ("不支持的文件格式: " ++ lowerStr (pathSuffix sc.filename) ++
          "。支持的格式: " ++ String.intercalate ", " supportedExtensions)),
      tempCreated := false, tempPathRecorded := false }
  else if sc.readOk = false then
    { result := HandlerResult.failure (ApiError.processingError "处理文件时发生错误"),
      tempCreated := false, tempPathRecorded := false }
  else if sc.writeOk = false then
    { result := HandlerResult.failure (ApiError.processingError "处理文件时发生错误"),
      tempCreated := true, tempPathRecorded := false }
  else
    let loaded := OllamaFileChat.load_file sc.session0 sc.tempPath sc.loadResult true
    if loaded.1 = false then
      { result := HandlerResult.failure (ApiError.unprocessable "无法加载文件内容"),
        tempCreated := true, tempPathRecorded := true }
    else
      let sectionsJson :=
        (OllamaFileChat.extract_document_sections loaded.2 sc.backend).1
      match parseModelOutput sectionsJson with
      | Except.error err =>
        { result := HandlerResult.failure err,
          tempCreated := true, tempPathRecorded := true }
      | Except.ok secs =>
        { result := HandlerResult.success
            { sections := secs, file_name := some sc.filename,
              file_size := some sc.fileSize, processing_status := "success" },
          tempCreated := true, tempPathRecorded := true }

/-- The finally block of api.py lines 232-238: when temp_file_path was
assigned (it is never the empty string), the scratch file is unlinked.
Filesystem primitives are modelled as succeeding: the existence test finds
the file the body created, and unlink removes it. -/
def tempExistsAfter (o : BodyOutcome) : Bool :=
  if o.tempPathRecorded then false else o.tempCreated

/-- Character list of the fixed message prefix inside the error payload of
OllamaFileChat.extract_document_sections (line 341). -/
def errMsgChars : List Char :=
  ['文', '档', '结', '构', '提', '取', '时', '出', '错', ':', ' ']

/-- Character list of the full literal part of the error payload before the
interpolated exception text. -/
def errHeadChars : List Char :=
  [lbrace, '"', 'e', 'r', 'r', 'o', 'r', '"', ':', ' ', '"'] ++ errMsgChars

/-- The exact expected model output of the spec's round-trip property. -/
def roundTripRaw : String :=
  "\x7b\"sections\":[\x7b\"index\":1,\"title\":\"A\",\"content\":\"x\"\x7d,\x7b\"index\":2,\"title\":\"B\",\"content\":\"\"\x7d,\x7b\"index\":3,\"title\":\"C\",\"content\":\"y\"\x7d]\x7d"

/-- A bad element anywhere in the array fails the whole element loop. -/
theorem buildSections_error_of_mem (elems : List Json)
    (h : ∃ j ∈ elems, ∃ e, validateSection j = Except.error e) :
    ∃ e, buildSections elems = Except.error e := by
  induction elems with
  | nil => simp at h
  | cons j rest ih =>
    obtain ⟨j0, hj0, e0, he0⟩ := h
    simp only [List.mem_cons] at hj0
    rcases hj0 with hj0 | hj0
    · subst hj0
      exact ⟨e0, by simp [buildSections, he0]⟩
    · rcases hv : validateSection j with e1 | s1
      · exact ⟨e1, by simp [buildSections, hv]⟩
      · obtain ⟨e2, he2⟩ := ih ⟨j0, hj0, e0, he0⟩
        exact ⟨e2, by simp [buildSections, hv, he2]⟩

/-- A successful element loop validates the array pointwise, in order and
with one output per input. -/
theorem buildSections_pointwise (elems : List Json) (secs : List DocumentSection)
    (h : buildSections elems = Except.ok secs) :
    secs.length = elems.length ∧
      ∀ i (hi : i < elems.length) (hs : i < secs.length),
        validateSection (elems.get ⟨i, hi⟩) = Except.ok (secs.get ⟨i, hs⟩) := by
  induction elems generalizing secs with
  | nil =>
    simp only [buildSections] at h
    cases h
    exact ⟨rfl, by intro i hi; simp at hi⟩
  | cons j rest ih =>
    simp only [buildSections] at h
    rcases hv : validateSection j with e | s <;> rw [hv] at h
    · cases h
    · rcases hr : buildSections rest with e | ss <;> rw [hr] at h
      · cases h
      · cases h
        obtain ⟨hlen, hpt⟩ := ih ss hr
        refine ⟨by simp [hlen], ?_⟩
        intro i hi hs
        match i with
        | 0 => simpa using hv
        | Nat.succ k =>
          simp only [List.get_cons_succ]
          exact hpt k (by simpa using hi) (by simpa using hs)

/-- A present key has a lookup value. -/
theorem lookupLast_isSome_of_containsKey (kvs : List (String × Json)) (k : String)
    (h : containsKey kvs k = true) : ∃ v, lookupLast kvs k = some v := by
  induction kvs with
  | nil => simp [containsKey] at h
  | cons p rest ih =>
    simp only [containsKey, List.any_cons, Bool.or_eq_true] at h
    rcases hr : lookupLast rest k with _ | v
    · rcases h with h | h
      · exact ⟨p.2, by obtain ⟨k', v'⟩ := p; simp_all [lookupLast]⟩
      · obtain ⟨v, hv⟩ := ih h
        rw [hv] at hr; cases hr
    · exact ⟨v, by obtain ⟨k', v'⟩ := p; simp [lookupLast, hr]⟩

/-- The error-key check of the validator fires whenever the parsed object
contains an `error` key, whatever else the object holds. -/
theorem validateSections_error_key (kvs : List (String × Json))
    (h : containsKey kvs "error" = true) :
    ∃ v, lookupLast kvs "error" = some v ∧
      validateSections (Json.obj kvs) = Except.error (ApiError.backendReported v) := by
  obtain ⟨v, hv⟩ := lookupLast_isSome_of_containsKey kvs "error" h
  exact ⟨v, hv, by simp [validateSections, h, hv]⟩

/-- An alphabetic character is not a digit. -/
theorem isDigit_false_of_isAlpha (c : Char) (h : c.isAlpha = true) :
    c.isDigit = false := by
  simp only [Char.isAlpha, Char.isUpper, Char.isLower, Char.isDigit, Bool.or_eq_true,
    Bool.and_eq_true, decide_eq_true_eq, Char.le_def, UInt32.le_def] at *
  simp only [BitVec.le_def] at *
  norm_num at *
  omega

/-- The numeral reader refuses a purely alphabetic (or empty) string. -/
theorem signedNumeral_none_of_alpha (cs : List Char)
    (h : cs.all Char.isAlpha = true) : signedNumeral cs = none := by
  cases cs with
  | nil => rfl
  | cons c rest =>
    simp only [List.all_cons, Bool.and_eq_true] at h
    have hminus : ¬c = '-' := fun he => absurd h.1 (by rw [he]; decide)
    have hplus : ¬c = '+' := fun he => absurd h.1 (by rw [he]; decide)
    have hd : c.isDigit = false := isDigit_false_of_isAlpha c h.1
    simp only [signedNumeral]
    rw [if_neg hminus, if_neg hplus]
    simp [numeralCore, hd]

/-- An element whose `index` value does not coerce to an integer fails
validation. -/
theorem validateSection_uncoercible_index (ekvs : List (String × Json))
    (h : ∀ v, lookupLast ekvs "index" = some v → coerceInt v = none) :
    ∃ e, validateSection (Json.obj ekvs) = Except.error e := by
  simp only [validateSection]
  rcases hi : lookupLast ekvs "index" with _ | vi
  · exact ⟨_, rfl⟩
  · have hc := h vi hi
    rcases lookupLast ekvs "title" with _ | vt
    · exact ⟨_, rfl⟩
    · rcases vt with _ | _ | _ | t | _ | _
      case str =>
        rcases lookupLast ekvs "content" with _ | vc
        · exact ⟨_, rfl⟩
        · rcases vc with _ | _ | _ | cv | _ | _
          case str =>
            exact ⟨ApiError.processingError "处理文件时发生错误", by simp [hc]⟩
          all_goals exact ⟨_, rfl⟩
      all_goals exact ⟨_, rfl⟩

/-- A closing quote ends the string body at once. -/
theorem strBody_quote (rest : List Char) :
    strBody ('"' :: rest) = some ([], rest) := by
  rw [strBody.eq_def]; simp

/-- A plain character (no quote, no backslash, no control character) is
consumed verbatim by the string-body scanner. -/
theorem strBody_plain_cons (c : Char) (rest : List Char)
    (h1 : ¬c = '"') (h2 : ¬c = '\\') (h3 : ¬c.toNat < 32) :
    strBody (c :: rest) =
      match strBody rest with
      | some (acc, r) => some (c :: acc, r)
      | none => none := by
  rw [strBody.eq_def]
  simp only [h1, h2, h3, if_false]

/-- A plain character run prepends itself to whatever the string-body
scanner makes of the remaining input. -/
theorem strBody_plain_append (pre rest : List Char)
    (h : ∀ c ∈ pre, ¬c = '"' ∧ ¬c = '\\' ∧ ¬c.toNat < 32) :
    strBody (pre ++ rest) =
      match strBody rest with
      | some (acc, r) => some (pre ++ acc, r)
      | none => none := by
  induction pre with
  | nil =>
    simp only [List.nil_append]
    rcases strBody rest with _ | ⟨acc, r⟩ <;> simp
  | cons c cs ih =>
    have hc := h c (by simp)
    rw [List.cons_append, strBody_plain_cons c _ hc.1 hc.2.1 hc.2.2,
      ih (fun d hd => h d (by simp [hd]))]
    rcases strBody rest with _ | ⟨acc, r⟩ <;> simp

/-- Whatever characters the backend error text contributes, scanning the
error payload either fails or produces an object whose first member is the
`error` key. -/
theorem parseVal_error_payload (m : Nat) (ecs : List Char) :
    parseVal (m + 3) (errHeadChars ++ ecs ++ ['"', rbrace]) = none ∨
    ∃ v kvs r, parseVal (m + 3) (errHeadChars ++ ecs ++ ['"', rbrace]) =
      some (Json.obj (("error", v) :: kvs), r) := by
  have hmsg : strBody (errMsgChars ++ (ecs ++ ['"', rbrace])) =
      match strBody (ecs ++ ['"', rbrace]) with
      | some (acc, r) => some (errMsgChars ++ acc, r)
      | none => none :=
    strBody_plain_append errMsgChars _ (by decide)
  have hkey : strBody ('e' :: 'r' :: 'r' :: 'o' :: 'r' :: '"' :: ':' :: ' ' :: '"' ::
      (errMsgChars ++ (ecs ++ ['"', rbrace]))) =
      some (['e', 'r', 'r', 'o', 'r'],
        ':' :: ' ' :: '"' :: (errMsgChars ++ (ecs ++ ['"', rbrace]))) := by
    rw [show ('e' :: 'r' :: 'r' :: 'o' :: 'r' :: '"' :: ':' :: ' ' :: '"' ::
        (errMsgChars ++ (ecs ++ ['"', rbrace]))) =
        ['e', 'r', 'r', 'o', 'r'] ++ ('"' :: ':' :: ' ' :: '"' ::
        (errMsgChars ++ (ecs ++ ['"', rbrace]))) from rfl]
    rw [strBody_plain_append _ _ (by decide), strBody_quote]
    rfl
  rw [show m + 3 = (m + 2) + 1 from rfl]
  simp only [errHeadChars, errMsgChars, List.cons_append, List.nil_append] at *
  simp only [parseVal]
  simp +decide [skipWs, jsonSpace]
  rw [show m + 2 = (m + 1) + 1 from rfl, parseMembers.eq_def]
  simp +decide [skipWs, jsonSpace, hkey]
  simp only [parseVal]
  simp +decide [skipWs, jsonSpace, hmsg]
  rcases hT : strBody (ecs ++ ['"', rbrace]) with _ | ⟨acc, r3⟩
  · simp [hT]
  · simp only [hT]
    rcases hw : skipWs r3 with _ | ⟨c4, r4⟩
    · simp
    · by_cases hc : c4 = ','
      · subst hc
        simp +decide only []
        rcases hM : parseMembers (m + 1) (skipWs r4) with _ | ⟨kvs, r5⟩
        · simp [hM]
        · right
          refine ⟨Json.str (String.mk ('文' :: '档' :: '结' :: '构' :: '提' :: '取' ::
            '时' :: '出' :: '错' :: ':' :: ' ' :: acc)), kvs, r5, ?_⟩
          simp [hM]
      · by_cases hc2 : c4 = rbrace
        · subst hc2
          simp +decide only []
          right
          refine ⟨Json.str (String.mk ('文' :: '档' :: '结' :: '构' :: '提' :: '取' ::
            '时' :: '出' :: '错' :: ':' :: ' ' :: acc)), [], r4, ?_⟩
          simp
        · simp [hc, hc2]

/-- For every backend error text, the endpoint's JSON-handling path turns
the error payload string into an error: either the payload fails to parse
(invalid model output) or it parses to an object with an `error` key, which
is rejected as a backend-reported error.  It can never become a successful
SectionSet. -/
theorem parseModelOutput_error_payload (e : String) :
    ∃ err, parseModelOutput
      ("\x7b\"error\": \"文档结构提取时出错: " ++ e ++ "\"\x7d") = Except.error err := by
  have hA : ("\x7b\"error\": \"文档结构提取时出错: ").data = errHeadChars := by decide
  have hB : ("\"\x7d").data = ['"', rbrace] := by decide
  have hdata : ("\x7b\"error\": \"文档结构提取时出错: " ++ e ++ "\"\x7d").data
      = errHeadChars ++ e.data ++ ['"', rbrace] := by
    rw [String.data_append, String.data_append, hA, hB]
  have hlen : (errHeadChars ++ e.data ++ ['"', rbrace]).length + 1
      = (e.data.length + 22) + 3 := by
    simp [List.length_append, errHeadChars, errMsgChars]
  simp only [parseModelOutput, jsonLoads]
  rw [hdata, hlen]
  rcases parseVal_error_payload (e.data.length + 22) e.data with hnone | ⟨v, kvs, r, hsome⟩
  · rw [hnone]
    exact ⟨_, rfl⟩
  · rw [hsome]
    rcases hw : skipWs r with _ | ⟨c, r2⟩
    · have hck : containsKey (("error", v) :: kvs) "error" = true := by
        simp [containsKey]
      obtain ⟨v2, hv2, hval⟩ := validateSections_error_key _ hck
      exact ⟨_, by simp [hw, hval]; rfl⟩
    · exact ⟨_, by simp [hw]; rfl⟩

/-- A supported extension has a loader in the dispatch table. -/
theorem lookup_isSome_of_supported (s : String) (hs : s ∈ supportedExtensions) :
    (List.lookup s loaderTable).isSome = true := by
  simp [supportedExtensions, loaderTable] at hs
  rcases hs with h | h | h | h | h <;> subst h <;> rfl

/-- An extension outside the supported set has no loader in the dispatch
table. -/
theorem lookup_none_of_not_contains (s : String)
    (h : supportedExtensions.contains s = false) :
    List.lookup s loaderTable = none := by
  simp [supportedExtensions, loaderTable] at h
  obtain ⟨h1, h2, h3, h4, h5⟩ := h
  have b1 : (s == ".txt") = false := by simp [h1]
  have b2 : (s == ".md") = false := by simp [h2]
  have b3 : (s == ".pdf") = false := by simp [h3]
  have b4 : (s == ".docx") = false := by simp [h4]
  have b5 : (s == ".doc") = false := by simp [h5]
  simp [List.lookup, loaderTable, b1, b2, b3, b4, b5]

/-- Claim C1 counterexample: the raw output of an empty JSON object parses
as an object without a `sections` key, yet the endpoint's JSON-handling
path returns the empty SectionSet as a success instead of failing — it
silently defaults to an empty result; and an output whose element carries
the numeric-string index "2" (not an integer) also returns a SectionSet as
a success, because pydantic's lax mode coerces it. -/
theorem c1_counterexample :
    (jsonLoads "\x7b\x7d" = some (Json.obj []) ∧
      parseModelOutput "\x7b\x7d" = Except.ok []) ∧
    parseModelOutput
      "\x7b\"sections\":[\x7b\"index\":\"2\",\"title\":\"t\",\"content\":\"c\"\x7d]\x7d" =
      Except.ok [{ index := 2, title := "t", content := "c" }] :=
  ⟨⟨rfl, rfl⟩, rfl⟩

/-- Claim C1 (amended): a parsed object carrying neither an `error` key nor
a `sections` key yields the empty SectionSet as a success (the source's
`.get("sections", [])` default); an element whose `index` is a signed
numeral string is coerced by pydantic's lax mode and succeeds with the
coerced value; and an element whose `index` is absent, null, an array, an
object, or an alphabetic string — values every pydantic version refuses
for an int field — does fail the whole call. -/
theorem c1_amended_validator_behavior :
    (∀ kvs, containsKey kvs "error" = false → lookupLast kvs "sections" = none →
      validateSections (Json.obj kvs) = Except.ok []) ∧
    (∀ s t c, ∀ n : Int, signedNumeral s.data = some n →
      validateSection (Json.obj [("index", Json.str s), ("title", Json.str t),
        ("content", Json.str c)]) =
        Except.ok { index := n, title := t, content := c }) ∧
    (∀ kvs elems ekvs, containsKey kvs "error" = false →
      lookupLast kvs "sections" = some (Json.arr elems) →
      Json.obj ekvs ∈ elems →
      (∀ v, lookupLast ekvs "index" = some v →
        v = Json.null ∨ (∃ xs, v = Json.arr xs) ∨
        (∃ mkvs, v = Json.obj mkvs) ∨
        (∃ s, v = Json.str s ∧ s.data.all Char.isAlpha = true)) →
      ∃ err, validateSections (Json.obj kvs) = Except.error err) := by
  refine ⟨?_, ?_, ?_⟩
  · intro kvs he hs
    simp [validateSections, he, hs]
  · intro s t c n hn
    simp [validateSection, lookupLast, coerceInt, hn]
  · intro kvs elems ekvs he hs hmem hbad
    have hun : ∀ v, lookupLast ekvs "index" = some v → coerceInt v = none := by
      intro v hv
      rcases hbad v hv with h1 | ⟨xs, h1⟩ | ⟨mkvs, h1⟩ | ⟨s, h1, halpha⟩ <;> subst h1
      · rfl
      · rfl
      · rfl
      · simpa [coerceInt] using signedNumeral_none_of_alpha s.data halpha
    obtain ⟨e0, he0⟩ := validateSection_uncoercible_index ekvs hun
    obtain ⟨e1, he1⟩ := buildSections_error_of_mem elems ⟨_, hmem, e0, he0⟩
    exact ⟨e1, by simp [validateSections, he, hs, he1]⟩

/-- Claim C1 amended, witnessed at concrete inputs: an object with only an
unrelated key validates to the empty SectionSet, an element with the
numeral-string index "2" succeeds with index 2, and a sections array whose
element has the alphabetic index "one" fails. -/
theorem c1_amended_validator_behavior_witness :
    validateSections (Json.obj [("foo", Json.int 1)]) = Except.ok [] ∧
    validateSection (Json.obj [("index", Json.str "2"), ("title", Json.str "t"),
      ("content", Json.str "c")]) =
      Except.ok { index := 2, title := "t", content := "c" } ∧
    ∃ err, validateSections (Json.obj [("sections", Json.arr
      [Json.obj [("index", Json.str "one"), ("title", Json.str "T"),
        ("content", Json.str "")]])]) = Except.error err :=
  ⟨c1_amended_validator_behavior.1 [("foo", Json.int 1)] rfl rfl,
   c1_amended_validator_behavior.2.1 "2" "t" "c" 2 rfl,
   c1_amended_validator_behavior.2.2 [("sections", Json.arr
      [Json.obj [("index", Json.str "one"), ("title", Json.str "T"),
        ("content", Json.str "")]])]
     [Json.obj [("index", Json.str "one"), ("title", Json.str "T"),
        ("content", Json.str "")]]
     [("index", Json.str "one"), ("title", Json.str "T"), ("content", Json.str "")]
     rfl rfl (by simp)
     (fun v hv => Or.inr (Or.inr (Or.inr
       ⟨"one", (Option.some.inj hv).symm, by decide⟩)))⟩

/-- Claim C2: fed the exact round-trip output, the validator yields exactly
the three sections with their order, indices, titles and contents preserved
(entry 2's content the empty string); and in general a successful element
loop neither reorders nor re-indexes — output i is the validation of input
i and the lengths agree. -/
theorem c2_validator_roundtrip_order :
    parseModelOutput roundTripRaw = Except.ok
      [{ index := 1, title := "A", content := "x" },
       { index := 2, title := "B", content := "" },
       { index := 3, title := "C", content := "y" }] ∧
    ∀ elems secs, buildSections elems = Except.ok secs →
      secs.length = elems.length ∧
      ∀ i (hi : i < elems.length) (hs : i < secs.length),
        validateSection (elems.get ⟨i, hi⟩) = Except.ok (secs.get ⟨i, hs⟩) :=
  ⟨rfl, buildSections_pointwise⟩

/-- Claim C2 witness: the general part instantiated on a concrete
one-element array. -/
theorem c2_validator_roundtrip_order_witness :
    parseModelOutput roundTripRaw = Except.ok
      [{ index := 1, title := "A", content := "x" },
       { index := 2, title := "B", content := "" },
       { index := 3, title := "C", content := "y" }] ∧
    ([{ index := 5, title := "T", content := "c" }] : List DocumentSection).length =
      [Json.obj [("index", Json.int 5), ("title", Json.str "T"),
        ("content", Json.str "c")]].length :=
  ⟨c2_validator_roundtrip_order.1,
   (c2_validator_roundtrip_order.2
     [Json.obj [("index", Json.int 5), ("title", Json.str "T"),
       ("content", Json.str "c")]]
     [{ index := 5, title := "T", content := "c" }] rfl).1⟩

/-- Claim C3 counterexample: with no loaded document,
extract_document_sections returns the empty-sections JSON string, which is
not the fixed sentinel the claim names for every derived operation. -/
theorem c3_counterexample :
    (OllamaFileChat.extract_document_sections
      { current_file_content := none, current_file_path := none }
      (Except.ok "x")).1 = "\x7b\"sections\": []\x7d" ∧
    ("\x7b\"sections\": []\x7d" : String) ≠ loadFirstSentinel :=
  ⟨rfl, by decide⟩

/-- Claim C3 (amended): with no loaded document, ask_about_file,
summarize_file, analyze_file_structure and extract_key_points return the
fixed sentinel without contacting the backend, while
extract_document_sections instead returns the empty-sections JSON string,
also without contacting the backend; being total functions, none raises. -/
theorem c3_amended_no_document_responses (st : ChatState)
    (backend : Except String String) (question : String)
    (h : noContent st.current_file_content = true) :
    OllamaFileChat.ask_about_file st backend question = (loadFirstSentinel, 0) ∧
    OllamaFileChat.summarize_file st backend = (loadFirstSentinel, 0) ∧
    OllamaFileChat.analyze_file_structure st backend = (loadFirstSentinel, 0) ∧
    OllamaFileChat.extract_key_points st backend = (loadFirstSentinel, 0) ∧
    OllamaFileChat.extract_document_sections st backend
      = ("\x7b\"sections\": []\x7d", 0) := by
  simp [OllamaFileChat.ask_about_file, OllamaFileChat.summarize_file,
    OllamaFileChat.analyze_file_structure, OllamaFileChat.extract_key_points,
    OllamaFileChat.extract_document_sections, h]

/-- Claim C3 amended, witnessed on the freshly-initialized session. -/
theorem c3_amended_no_document_responses_witness :
    OllamaFileChat.ask_about_file
      { current_file_content := none, current_file_path := none }
      (Except.ok "x") "q" = (loadFirstSentinel, 0) ∧
    OllamaFileChat.summarize_file
      { current_file_content := none, current_file_path := none }
      (Except.ok "x") = (loadFirstSentinel, 0) ∧
    OllamaFileChat.analyze_file_structure
      { current_file_content := none, current_file_path := none }
      (Except.ok "x") = (loadFirstSentinel, 0) ∧
    OllamaFileChat.extract_key_points
      { current_file_content := none, current_file_path := none }
      (Except.ok "x") = (loadFirstSentinel, 0) ∧
    OllamaFileChat.extract_document_sections
      { current_file_content := none, current_file_path := none }
      (Except.ok "x") = ("\x7b\"sections\": []\x7d", 0) :=
  c3_amended_no_document_responses
    { current_file_content := none, current_file_path := none }
    (Except.ok "x") "q" rfl

/-- Claim C4: whenever the parsed model output contains an `error` key, the
validator fails with the backend-reported error carrying the reported
value, independent of any `sections` key, and performs no section
validation. -/
theorem c4_error_key_precedence (kvs : List (String × Json))
    (h : containsKey kvs "error" = true) :
    ∃ v, lookupLast kvs "error" = some v ∧
      validateSections (Json.obj kvs) = Except.error (ApiError.backendReported v) :=
  validateSections_error_key kvs h

/-- Claim C4 witness: an object carrying both an `error` key and a
`sections` key whose value would not even validate. -/
theorem c4_error_key_precedence_witness :
    ∃ v, lookupLast [("error", Json.str "boom"),
        ("sections", Json.arr [Json.int 1])] "error" = some v ∧
      validateSections (Json.obj [("error", Json.str "boom"),
        ("sections", Json.arr [Json.int 1])]) =
        Except.error (ApiError.backendReported v) :=
  c4_error_key_precedence
    [("error", Json.str "boom"), ("sections", Json.arr [Json.int 1])] rfl

/-- Claim C5: with a loaded document, extract_document_sections issues
exactly one backend request (whether the backend succeeds or fails — no
retry), and on a backend failure the returned string is the error payload,
which the endpoint's JSON-handling path always turns into an error rather
than a success-shaped SectionSet. -/
theorem c5_single_request_error_propagation (st : ChatState)
    (backend : Except String String)
    (h : noContent st.current_file_content = false) :
    (OllamaFileChat.extract_document_sections st backend).2 = 1 ∧
    ∀ e, backend = Except.error e →
      ∃ err, parseModelOutput
        (OllamaFileChat.extract_document_sections st backend).1 =
          Except.error err := by
  constructor
  · rcases backend with e | r <;>
      simp [OllamaFileChat.extract_document_sections, h]
  · intro e he
    subst he
    simp only [OllamaFileChat.extract_document_sections, h, Bool.false_eq_true,
      if_false]
    exact parseModelOutput_error_payload e

/-- Claim C5 witness: one request and error propagation at a concrete
loaded session and backend failure. -/
theorem c5_single_request_error_propagation_witness :
    ((OllamaFileChat.extract_document_sections
      { current_file_content := some "doc", current_file_path := some "a.txt" }
      (Except.error "boom")).2 = 1) ∧
    ∃ err, parseModelOutput
      (OllamaFileChat.extract_document_sections
        { current_file_content := some "doc", current_file_path := some "a.txt" }
        (Except.error "boom")).1 = Except.error err := by
  have h := c5_single_request_error_propagation
    { current_file_content := some "doc", current_file_path := some "a.txt" }
    (Except.error "boom") rfl
  exact ⟨h.1, h.2 "boom" rfl⟩

/-- Claim C6: a missing file fails with the file-not-found error before any
format dispatch and whatever the loaders would do; an existing file whose
lower-cased extension is outside the enumerated set fails with the
unsupported-format error, again without invoking any loader (the result is
independent of the loader outcomes). -/
theorem c6_not_found_then_unsupported (path : String)
    (run run2 : FormatLoader → Except String String) :
    FileProcessor.load_file false path run =
      Except.error (LoadError.fileNotFound ("文件不存在: " ++ path)) ∧
    (supportedExtensions.contains (lowerStr (pathSuffix path)) = false →
      FileProcessor.load_file true path run =
        Except.error (LoadError.unsupportedFormat
          ("不支持的文件类型: " ++ lowerStr (pathSuffix path))) ∧
      FileProcessor.load_file true path run =
        FileProcessor.load_file true path run2) := by
  refine ⟨rfl, fun h => ?_⟩
  have hnone : loaderFor path = none := lookup_none_of_not_contains _ h
  constructor <;> simp [FileProcessor.load_file, hnone]

/-- Claim C6 witness: a CSV upload, with two loaders that would disagree. -/
theorem c6_not_found_then_unsupported_witness :
    FileProcessor.load_file false "data.csv" (fun _ => Except.ok "") =
      Except.error (LoadError.fileNotFound ("文件不存在: " ++ "data.csv")) ∧
    (FileProcessor.load_file true "data.csv" (fun _ => Except.ok "") =
      Except.error (LoadError.unsupportedFormat
        ("不支持的文件类型: " ++ lowerStr (pathSuffix "data.csv"))) ∧
     FileProcessor.load_file true "data.csv" (fun _ => Except.ok "") =
      FileProcessor.load_file true "data.csv" (fun _ => Except.error "x")) := by
  have h := c6_not_found_then_unsupported "data.csv"
    (fun _ => Except.ok "") (fun _ => Except.error "x")
  exact ⟨h.1, h.2 rfl⟩

/-- Claim C8 counterexample: a supported upload whose scratch-file write
raises after NamedTemporaryFile created the file (api.py lines 167-171)
leaves temp_file_path unset, so the finally block's guard skips the unlink
and the scratch file survives the request — the cleanup-on-every-exception
guarantee fails on this path. -/
theorem c8_counterexample :
    tempExistsAfter (handlerBody
      { filename := "a.txt",
        session0 := { current_file_content := none, current_file_path := none },
        tempPath := "/tmp/scratch.txt", readOk := true, writeOk := false,
        loadResult := Except.ok "body", fileSize := "0.10 KB",
        backend := Except.ok "\x7b\"sections\": []\x7d" }) = true := rfl

/-- Claim C8 (amended): on every execution in which the write into the
just-created scratch file completes, the finally block finds and removes
any scratch file the body created — success, 422 load failure,
backend-reported or malformed model output, or the other modelled failures
— so no temporary file survives; the one exception, exhibited by the
counterexample, is a write failure between the file's creation and the
assignment of temp_file_path. -/
theorem c8_temp_file_cleanup (sc : UploadScenario)
    (h : sc.writeOk = true) :
    tempExistsAfter (handlerBody sc) = false := by
  unfold handlerBody
  split
  · rfl
  · split
    · rfl
    · split
      · simp_all
      · dsimp only
        split
        · rfl
        · split <;> rfl

/-- Claim C8 amended, witnessed on a concrete request whose load fails
after a successful write. -/
theorem c8_temp_file_cleanup_witness :
    tempExistsAfter (handlerBody
      { filename := "b.md",
        session0 := { current_file_content := none, current_file_path := none },
        tempPath := "/tmp/scratch.md", readOk := true, writeOk := true,
        loadResult := Except.error (LoadError.loadFailed "x"),
        fileSize := "0.10 KB", backend := Except.error "down" }) = false :=
  c8_temp_file_cleanup _ rfl

/-- Claim C9: when the underlying loader fails, the session's load_file
returns False and the loaded-document slot keeps exactly the values it had
before the call. -/
theorem c9_failed_load_preserves_state (st : ChatState) (path : String)
    (err : LoadError) (infoOk : Bool) :
    OllamaFileChat.load_file st path (Except.error err) infoOk = (false, st) := rfl

/-- Claim C10: extension matching is case-insensitive at every entry point:
a path whose lower-cased extension is a supported one is accepted by
is_supported_file, dispatched by load_file to the loader of the lower-case
extension, and accepted by the upload endpoint's extension gate. -/
theorem c10_case_insensitive_extensions (path : String) (s : String)
    (hs : s ∈ supportedExtensions) (h : lowerStr (pathSuffix path) = s) :
    is_supported_file path = true ∧
    loaderFor path = List.lookup s loaderTable ∧
    (loaderFor path).isSome = true ∧
    apiExtensionAccepted path = true := by
  subst h
  refine ⟨?_, rfl, lookup_isSome_of_supported _ hs, ?_⟩ <;>
    simp [is_supported_file, apiExtensionAccepted, hs]

/-- Claim C10 witness: an upper-cased .TXT path inside a directory. -/
theorem c10_case_insensitive_extensions_witness :
    is_supported_file "docs/Report.TXT" = true ∧
    loaderFor "docs/Report.TXT" = List.lookup ".txt" loaderTable ∧
    (loaderFor "docs/Report.TXT").isSome = true ∧
    apiExtensionAccepted "docs/Report.TXT" = true :=
  c10_case_insensitive_extensions "docs/Report.TXT" ".txt" (by decide) rfl
